import Mathlib

/-!
Verification of the hierarchy-normalization pipeline (`pipeline.py`).

The embedding translates the data model (`InputItem`, `OutputRow`), the unit
normaliser (`normalise_unit`) and the core `transform` function into Lean.
Python dicts become association lists with most-recent-first shadowing, the
`emitted_headers` set becomes a list with membership tests, and the single
pass of `transform` becomes a fold with explicit state (`TState`).
-/

namespace Sienge

/-- Python `str.zfill(width)`: left-pad with zeros to `width`, keeping a
leading sign character in front of the padding. -/
def zfill (s : String) (width : Nat) : String :=
  if width ≤ s.length then s
  else
    let pad := String.mk (List.replicate (width - s.length) '0')
    match s.data with
    | c :: rest =>
        if c = '+' ∨ c = '-' then String.mk (c :: (pad.data ++ rest))
        else pad ++ s
    | [] => pad

/-- `InputItem` dataclass from `pipeline.py`: one parsed row of the input
spreadsheet.  Prices and quantities are only carried through the transform
verbatim, so they are modelled as rationals. -/
structure InputItem where
  raw_item : String
  description : String
  code : Option String := none
  unit : Option String := none
  price : Option ℚ := none
  quantity : Option ℚ := none
  is_data : Bool := false
deriving DecidableEq, Repr

/-- Python `str.split(".")` over the character list: cut at every dot,
yielding at least one (possibly empty) segment. -/
def splitDotAux : List Char → List Char → List (List Char)
  | [], acc => [acc.reverse]
  | c :: rest, acc =>
      if c = '.' then acc.reverse :: splitDotAux rest []
      else splitDotAux rest (c :: acc)

def splitDot (s : String) : List String :=
  (splitDotAux s.data []).map String.mk

/-- Python `".".join(...)`. -/
def joinDot : List String → String
  | [] => ""
  | [a] => a
  | a :: rest => a ++ "." ++ joinDot rest

/-- Python `"".join(...)`. -/
def concatAll : List String → String
  | [] => ""
  | a :: rest => a ++ concatAll rest

/-- Python `str.strip()`: drop whitespace from both ends. -/
def py_strip (s : String) : String :=
  String.mk (((s.data.dropWhile Char.isWhitespace).reverse.dropWhile
    Char.isWhitespace).reverse)

/-- `InputItem.parts`: split the raw identifier on dots and zero-pad each
segment to 3 characters. -/
def InputItem.parts (it : InputItem) : List String :=
  (splitDot it.raw_item).map (fun seg => zfill seg 3)

/-- `InputItem.level`: the number of dotted parts. -/
def InputItem.level (it : InputItem) : Nat := it.parts.length

/-- `InputItem.padded_item`: the zero-padded parts joined with dots. -/
def InputItem.padded_item (it : InputItem) : String :=
  joinDot it.parts

/-- `OutputRow` dataclass from `pipeline.py`: one row of the output
spreadsheet. -/
structure OutputRow where
  item : String
  code : Option String := none
  description : String := ""
  unit : Option String := none
  quantity : Option ℚ := none
  price : Option ℚ := none
deriving DecidableEq, Repr

/-- The fixed `UNIT_MAP` lookup table from `pipeline.py`. -/
def UNIT_MAP : List (String × String) :=
  [("M2", "m2"), ("M3", "m3"), ("M", "m"), ("KG", "kg"),
   ("UND", "un"), ("VB", "vb"), ("MÊS", "mes"), ("MES", "mes")]

/-- Python `str.upper`, restricted to the characters occurring in this
pipeline's data: ASCII letters plus the accented letters of the unit table. -/
def py_upper_char (c : Char) : Char :=
  if c = 'ê' then 'Ê' else if c = 'ç' then 'Ç' else c.toUpper

/-- Python `str.lower` for the same character repertoire. -/
def py_lower_char (c : Char) : Char :=
  if c = 'Ê' then 'ê' else if c = 'Ç' then 'ç' else c.toLower

def py_upper (s : String) : String := String.mk (s.data.map py_upper_char)

def py_lower (s : String) : String := String.mk (s.data.map py_lower_char)

/-- The string-argument behaviour of `normalise_unit`: trim, upper-case, look
up in `UNIT_MAP`, and on a miss return the trimmed input lower-cased. -/
def normalise_unit_str (s : String) : String :=
  (UNIT_MAP.lookup (py_upper (py_strip s))).getD (py_lower (py_strip s))

/-- `normalise_unit` as used inside `transform`, where `InputItem.unit` is
`str | None` per the dataclass annotation. -/
def normalise_unit (raw : Option String) : Option String :=
  raw.map normalise_unit_str

/-- A dynamically-typed Python value, as `normalise_unit` can actually
receive at runtime (spreadsheet cells may hold numbers). -/
inductive PyVal where
  | str (s : String)
  | int (n : Int)
  | float (q : ℚ)
deriving DecidableEq, Repr

/-- `normalise_unit` over dynamically-typed input.  The source reads
`key = raw.strip().upper()` with no `str()` coercion, so a non-string,
non-`None` argument raises `AttributeError` (ints and floats have no
`strip` method); this is modelled as `Except.error`. -/
def normalise_unit_py : Option PyVal → Except String (Option String)
  | none => Except.ok none
  | some (PyVal.str s) => Except.ok (some (normalise_unit_str s))
  | some (PyVal.int _) => Except.error "AttributeError"
  | some (PyVal.float _) => Except.error "AttributeError"

/-- The mutable state threaded through `transform`'s single pass: the
`desc_map` dict (most-recent binding first) and the `emitted_headers` set. -/
structure TState where
  desc_map : List (String × String)
  emitted_headers : List String
deriving DecidableEq, Repr

/-- The initial state of `transform`: empty dict, empty set. -/
def initState : TState := { desc_map := [], emitted_headers := [] }

/-- The output row `transform` builds for a task: `code`, `description`,
normalised `unit`, `quantity` and `price` copied from the input item. -/
def task_row (it : InputItem) (itemStr : String) : OutputRow :=
  { item := itemStr, code := it.code, description := it.description,
    unit := normalise_unit it.unit, quantity := it.quantity, price := it.price }

/-- The body of `transform`'s loop for one item: returns the updated state
and the rows appended for this item, following the `level` branches of
`pipeline.py` lines 215-322. -/
def processItem (s : TState) (it : InputItem) : TState × List OutputRow :=
  let padded := it.padded_item
  let parts := it.parts
  let level := it.level
  let s1 : TState := { s with desc_map := (padded, it.description) :: s.desc_map }
  if level = 1 then
    (s1, [{ item := padded, description := it.description }])
  else if level = 2 then
    if it.is_data = false then
      (s1, [{ item := padded, description := it.description }])
    else
      let l3_header := padded ++ ".001"
      let step :=
        if l3_header ∈ s1.emitted_headers then (s1, ([] : List OutputRow))
        else ({ s1 with emitted_headers := l3_header :: s1.emitted_headers },
              [{ item := l3_header, description := it.description }])
      let l4_item := l3_header ++ ".001"
      (step.1, step.2 ++ [task_row it l4_item])
  else if level = 3 then
    if it.is_data = false then
      (s1, [{ item := padded, description := it.description }])
    else
      let parent_l2 := joinDot (parts.take 2)
      let l3_header := parent_l2 ++ ".001"
      let step :=
        if l3_header ∈ s1.emitted_headers then (s1, ([] : List OutputRow))
        else
          let parent_desc := (s1.desc_map.lookup parent_l2).getD it.description
          ({ s1 with emitted_headers := l3_header :: s1.emitted_headers },
           [{ item := l3_header, description := parent_desc }])
      let suffix := parts.getD 2 ""
      let l4_item := l3_header ++ "." ++ suffix
      (step.1, step.2 ++ [task_row it l4_item])
  else if level = 4 then
    (s1, [task_row it padded])
  else if 5 ≤ level then
    let base := joinDot (parts.take 3)
    let rest := concatAll (parts.drop 3)
    let l4_item := base ++ "." ++ rest
    (s1, [task_row it l4_item])
  else
    (s1, [])

/-- The loop of `transform`, threading the state through the item list. -/
def transformAux (s : TState) : List InputItem → List OutputRow
  | [] => []
  | it :: rest =>
      let step := processItem s it
      step.2 ++ transformAux step.1 rest

/-- `transform` from `pipeline.py`: normalise the hierarchy of a list of
parsed rows. -/
def transform (items : List InputItem) : List OutputRow :=
  transformAux initState items

/-- The state reached after processing a prefix of the input. -/
def runState (s : TState) : List InputItem → TState
  | [] => s
  | it :: rest => runState (processItem s it).1 rest

/-- The identifiers of the synthetic level-3 group headers that processing
one item emits: non-empty only for a task at level 2 or 3 whose container
header has not been emitted yet. -/
def syn_headers (s : TState) (it : InputItem) : List String :=
  if it.level = 2 ∧ it.is_data = true then
    (if it.padded_item ++ ".001" ∈ s.emitted_headers then []
     else [it.padded_item ++ ".001"])
  else if it.level = 3 ∧ it.is_data = true then
    (if joinDot (it.parts.take 2) ++ ".001" ∈ s.emitted_headers then []
     else [joinDot (it.parts.take 2) ++ ".001"])
  else []

/-- All synthetic header identifiers emitted while processing a list. -/
def transformSyn (s : TState) : List InputItem → List String
  | [] => []
  | it :: rest => syn_headers s it ++ transformSyn (processItem s it).1 rest

/-- The level-4 identifier `transform` assigns to a task, by level. -/
def task_item (it : InputItem) : String :=
  if it.level = 2 then (it.padded_item ++ ".001") ++ ".001"
  else if it.level = 3 then
    (joinDot (it.parts.take 2) ++ ".001") ++ "." ++ it.parts.getD 2 ""
  else if it.level = 4 then it.padded_item
  else joinDot (it.parts.take 3) ++ "." ++ concatAll (it.parts.drop 3)

theorem processItem_l0 (s : TState) (it : InputItem) (h0 : it.level = 0) :
    processItem s it =
      ({ s with desc_map := (it.padded_item, it.description) :: s.desc_map }, []) := by
  simp [processItem, h0]

theorem processItem_l1 (s : TState) (it : InputItem) (h1 : it.level = 1) :
    processItem s it =
      ({ s with desc_map := (it.padded_item, it.description) :: s.desc_map },
       [{ item := it.padded_item, description := it.description }]) := by
  simp [processItem, h1]

theorem processItem_l2_group (s : TState) (it : InputItem)
    (h2 : it.level = 2) (hd : it.is_data = false) :
    processItem s it =
      ({ s with desc_map := (it.padded_item, it.description) :: s.desc_map },
       [{ item := it.padded_item, description := it.description }]) := by
  simp [processItem, h2, hd]

theorem processItem_l2_task_new (s : TState) (it : InputItem)
    (h2 : it.level = 2) (hd : it.is_data = true)
    (hm : it.padded_item ++ ".001" ∉ s.emitted_headers) :
    processItem s it =
      ({ desc_map := (it.padded_item, it.description) :: s.desc_map,
         emitted_headers := (it.padded_item ++ ".001") :: s.emitted_headers },
       [{ item := it.padded_item ++ ".001", description := it.description },
        task_row it ((it.padded_item ++ ".001") ++ ".001")]) := by
  simp [processItem, h2, hd, hm]

theorem processItem_l2_task_seen (s : TState) (it : InputItem)
    (h2 : it.level = 2) (hd : it.is_data = true)
    (hm : it.padded_item ++ ".001" ∈ s.emitted_headers) :
    processItem s it =
      ({ s with desc_map := (it.padded_item, it.description) :: s.desc_map },
       [task_row it ((it.padded_item ++ ".001") ++ ".001")]) := by
  simp [processItem, h2, hd, hm]

theorem processItem_l3_group (s : TState) (it : InputItem)
    (h3 : it.level = 3) (hd : it.is_data = false) :
    processItem s it =
      ({ s with desc_map := (it.padded_item, it.description) :: s.desc_map },
       [{ item := it.padded_item, description := it.description }]) := by
  simp [processItem, h3, hd]

theorem processItem_l3_task_new (s : TState) (it : InputItem)
    (h3 : it.level = 3) (hd : it.is_data = true)
    (hm : joinDot (it.parts.take 2) ++ ".001" ∉ s.emitted_headers) :
    processItem s it =
      ({ desc_map := (it.padded_item, it.description) :: s.desc_map,
         emitted_headers := (joinDot (it.parts.take 2) ++ ".001") :: s.emitted_headers },
       [{ item := joinDot (it.parts.take 2) ++ ".001",
          description :=
            (List.lookup (joinDot (it.parts.take 2))
              ((it.padded_item, it.description) :: s.desc_map)).getD it.description },
        task_row it ((joinDot (it.parts.take 2) ++ ".001") ++ "." ++ it.parts.getD 2 "")]) := by
  simp [processItem, h3, hd, hm]

theorem processItem_l3_task_seen (s : TState) (it : InputItem)
    (h3 : it.level = 3) (hd : it.is_data = true)
    (hm : joinDot (it.parts.take 2) ++ ".001" ∈ s.emitted_headers) :
    processItem s it =
      ({ s with desc_map := (it.padded_item, it.description) :: s.desc_map },
       [task_row it ((joinDot (it.parts.take 2) ++ ".001") ++ "." ++ it.parts.getD 2 "")]) := by
  simp [processItem, h3, hd, hm]

theorem processItem_l4 (s : TState) (it : InputItem) (h4 : it.level = 4) :
    processItem s it =
      ({ s with desc_map := (it.padded_item, it.description) :: s.desc_map },
       [task_row it it.padded_item]) := by
  simp [processItem, h4]

theorem processItem_l5 (s : TState) (it : InputItem) (h5 : 5 ≤ it.level) :
    processItem s it =
      ({ s with desc_map := (it.padded_item, it.description) :: s.desc_map },
       [task_row it
          (joinDot (it.parts.take 3) ++ "." ++ concatAll (it.parts.drop 3))]) := by
  have e1 : ¬ it.level = 1 := by omega
  have e2 : ¬ it.level = 2 := by omega
  have e3 : ¬ it.level = 3 := by omega
  have e4 : ¬ it.level = 4 := by omega
  simp [processItem, e1, e2, e3, e4, h5]

theorem bool_cases (b : Bool) : b = false ∨ b = true := by
  cases b
  · exact Or.inl rfl
  · exact Or.inr rfl

/-- Case split on the level of an item, matching `transform`'s branches. -/
theorem level_cases (it : InputItem) :
    it.level = 0 ∨ it.level = 1 ∨ it.level = 2 ∨ it.level = 3 ∨ it.level = 4 ∨
      5 ≤ it.level := by
  omega

theorem processItem_desc_map (s : TState) (it : InputItem) :
    (processItem s it).1.desc_map = (it.padded_item, it.description) :: s.desc_map := by
  rcases level_cases it with h | h | h | h | h | h
  · rw [processItem_l0 s it h]
  · rw [processItem_l1 s it h]
  · rcases bool_cases it.is_data with hd | hd
    · rw [processItem_l2_group s it h hd]
    · by_cases hm : it.padded_item ++ ".001" ∈ s.emitted_headers
      · rw [processItem_l2_task_seen s it h hd hm]
      · rw [processItem_l2_task_new s it h hd hm]
  · rcases bool_cases it.is_data with hd | hd
    · rw [processItem_l3_group s it h hd]
    · by_cases hm : joinDot (it.parts.take 2) ++ ".001" ∈ s.emitted_headers
      · rw [processItem_l3_task_seen s it h hd hm]
      · rw [processItem_l3_task_new s it h hd hm]
  · rw [processItem_l4 s it h]
  · rw [processItem_l5 s it h]

theorem processItem_emitted (s : TState) (it : InputItem) :
    (processItem s it).1.emitted_headers = syn_headers s it ++ s.emitted_headers := by
  rcases level_cases it with h | h | h | h | h | h
  · rw [processItem_l0 s it h]; simp [syn_headers, h]
  · rw [processItem_l1 s it h]; simp [syn_headers, h]
  · rcases bool_cases it.is_data with hd | hd
    · rw [processItem_l2_group s it h hd]; simp [syn_headers, h, hd]
    · by_cases hm : it.padded_item ++ ".001" ∈ s.emitted_headers
      · rw [processItem_l2_task_seen s it h hd hm]; simp [syn_headers, h, hd, hm]
      · rw [processItem_l2_task_new s it h hd hm]; simp [syn_headers, h, hd, hm]
  · rcases bool_cases it.is_data with hd | hd
    · rw [processItem_l3_group s it h hd]; simp [syn_headers, h, hd]
    · by_cases hm : joinDot (it.parts.take 2) ++ ".001" ∈ s.emitted_headers
      · rw [processItem_l3_task_seen s it h hd hm]; simp [syn_headers, h, hd, hm]
      · rw [processItem_l3_task_new s it h hd hm]; simp [syn_headers, h, hd, hm]
  · rw [processItem_l4 s it h]; simp [syn_headers, h]
  · rw [processItem_l5 s it h]
    have e2 : ¬ it.level = 2 := by omega
    have e3 : ¬ it.level = 3 := by omega
    simp [syn_headers, e2, e3]

theorem mem_syn_headers_not_emitted (s : TState) (it : InputItem) (x : String)
    (hx : x ∈ syn_headers s it) : x ∉ s.emitted_headers := by
  unfold syn_headers at hx
  split_ifs at hx <;> simp_all

theorem syn_headers_nodup (s : TState) (it : InputItem) :
    (syn_headers s it).Nodup := by
  unfold syn_headers
  split_ifs <;> simp

theorem mem_transformSyn_not_emitted :
    ∀ (items : List InputItem) (s : TState) (x : String),
      x ∈ transformSyn s items → x ∉ s.emitted_headers
  | [], s, x, hx => by simp [transformSyn] at hx
  | it :: rest, s, x, hx => by
      rw [transformSyn, List.mem_append] at hx
      rcases hx with hx | hx
      · exact mem_syn_headers_not_emitted s it x hx
      · have h1 := mem_transformSyn_not_emitted rest (processItem s it).1 x hx
        rw [processItem_emitted, List.mem_append] at h1
        intro hmem
        exact h1 (Or.inr hmem)

theorem transformSyn_nodup :
    ∀ (items : List InputItem) (s : TState), (transformSyn s items).Nodup
  | [], _ => by simp [transformSyn]
  | it :: rest, s => by
      rw [transformSyn]
      refine (syn_headers_nodup s it).append (transformSyn_nodup rest _) ?_
      intro x hx hx'
      have hmem : x ∈ (processItem s it).1.emitted_headers := by
        rw [processItem_emitted, List.mem_append]
        exact Or.inl hx
      exact mem_transformSyn_not_emitted rest (processItem s it).1 x hx' hmem

theorem processItem_coded (s : TState) (it : InputItem)
    (hcode : it.code.isSome = it.is_data) :
    ((processItem s it).2).filter (fun r => r.code.isSome) =
      if it.is_data = true ∧ 2 ≤ it.level then [task_row it (task_item it)]
      else [] := by
  rcases level_cases it with h | h | h | h | h | h
  · rw [processItem_l0 s it h]; simp [h]
  · rw [processItem_l1 s it h]
    have : ¬ (it.is_data = true ∧ 2 ≤ it.level) := by
      rintro ⟨-, hle⟩; omega
    simp [this]
  · rcases bool_cases it.is_data with hd | hd
    · rw [processItem_l2_group s it h hd]; simp [hd]
    · have hcond : it.is_data = true ∧ 2 ≤ it.level := ⟨hd, by omega⟩
      have hco : it.code.isSome = true := by rw [hcode, hd]
      by_cases hm : it.padded_item ++ ".001" ∈ s.emitted_headers
      · rw [processItem_l2_task_seen s it h hd hm]
        simp [hcond, task_row, task_item, h, hco]
      · rw [processItem_l2_task_new s it h hd hm]
        simp [hcond, task_row, task_item, h, hco]
  · rcases bool_cases it.is_data with hd | hd
    · rw [processItem_l3_group s it h hd]; simp [hd]
    · have hcond : it.is_data = true ∧ 2 ≤ it.level := ⟨hd, by omega⟩
      have hco : it.code.isSome = true := by rw [hcode, hd]
      by_cases hm : joinDot (it.parts.take 2) ++ ".001" ∈ s.emitted_headers
      · rw [processItem_l3_task_seen s it h hd hm]
        simp [hcond, task_row, task_item, h, hco]
      · rw [processItem_l3_task_new s it h hd hm]
        simp [hcond, task_row, task_item, h, hco]
  · rw [processItem_l4 s it h]
    rcases bool_cases it.is_data with hd | hd
    · have hco : it.code.isSome = false := by rw [hcode, hd]
      simp [hd, task_row, hco]
    · have hcond : it.is_data = true ∧ 2 ≤ it.level := ⟨hd, by omega⟩
      have hco : it.code.isSome = true := by rw [hcode, hd]
      simp [hcond, task_row, task_item, h, hco]
  · rw [processItem_l5 s it h]
    have e2 : ¬ it.level = 2 := by omega
    have e3 : ¬ it.level = 3 := by omega
    have e4 : ¬ it.level = 4 := by omega
    rcases bool_cases it.is_data with hd | hd
    · have hco : it.code.isSome = false := by rw [hcode, hd]
      simp [hd, task_row, hco]
    · have hcond : it.is_data = true ∧ 2 ≤ it.level := ⟨hd, by omega⟩
      have hco : it.code.isSome = true := by rw [hcode, hd]
      simp [hcond, task_row, task_item, e2, e3, e4, hco]

theorem transformAux_coded :
    ∀ (items : List InputItem) (s : TState),
      (∀ it ∈ items, it.code.isSome = it.is_data) →
      (transformAux s items).filter (fun r => r.code.isSome) =
        (items.filter (fun it => it.is_data && decide (2 ≤ it.level))).map
          (fun it => task_row it (task_item it))
  | [], _, _ => by simp [transformAux]
  | it :: rest, s, h => by
      have hhd := h it (List.mem_cons_self it rest)
      have htl : ∀ x ∈ rest, x.code.isSome = x.is_data :=
        fun x hx => h x (List.mem_cons_of_mem it hx)
      rw [transformAux, List.filter_append,
        transformAux_coded rest (processItem s it).1 htl,
        processItem_coded s it hhd, List.filter_cons]
      by_cases hc : it.is_data = true ∧ 2 ≤ it.level
      · simp [hc.1, hc.2]
      · rw [if_neg hc]
        have hfalse : (it.is_data && decide (2 ≤ it.level)) = false := by
          rcases bool_cases it.is_data with hb | hb
          · rw [hb, Bool.false_and]
          · rw [hb, Bool.true_and, decide_eq_false_iff_not]
            intro hle
            exact hc ⟨hb, hle⟩
        simp [hfalse]

theorem transformAux_append :
    ∀ (xs ys : List InputItem) (s : TState),
      transformAux s (xs ++ ys) =
        transformAux s xs ++ transformAux (runState s xs) ys
  | [], _, _ => by simp [transformAux, runState]
  | x :: xs, ys, s => by
      rw [List.cons_append, transformAux, transformAux, runState,
        transformAux_append xs ys (processItem s x).1, List.append_assoc]

theorem runState_desc_map :
    ∀ (items : List InputItem) (s : TState),
      (runState s items).desc_map =
        (items.map (fun r => (r.padded_item, r.description))).reverse ++ s.desc_map
  | [], _ => by simp [runState]
  | it :: rest, s => by
      rw [runState, runState_desc_map rest (processItem s it).1,
        processItem_desc_map]
      simp

def c1_group : InputItem := { raw_item := "1", description := "Parent" }

def c1_task : InputItem :=
  { raw_item := "1.1", description := "Task", code := some "C1",
    unit := some "UND", price := some 20, quantity := some 3, is_data := true }

/-- Claim C1: the spec (and `test_l2_task_deepened_to_l4`) require the
group-then-level-2-task input to yield four rows, with a synthetic level-2
group `001.001` and the parent's description on both synthetic headers.
The code emits only three rows: no synthetic level-2 group, and the
level-3 header carries the task's own description. -/
theorem C1_code_bug :
    transform [c1_group, c1_task] =
      [{ item := "001", description := "Parent" },
       { item := "001.001.001", description := "Task" },
       { item := "001.001.001.001", code := some "C1", description := "Task",
         unit := some "un", quantity := some 3, price := some 20 }] ∧
    (transform [c1_group, c1_task]).length = 3 :=
  ⟨by decide, by decide⟩

/-- Claim C9: the claim (and `test_integer_input_does_not_crash`) say
`normalise_unit` never raises, coercing numeric input to string.  The code
calls `raw.strip()` with no `str()` coercion, so an int or float argument
raises `AttributeError`.  The table lookup and lower-case fallback for
string input, and the absent-to-absent case, do behave as claimed. -/
theorem C9_code_bug :
    normalise_unit_py (some (PyVal.int 1)) = Except.error "AttributeError" ∧
    normalise_unit_py (some (PyVal.float (5 / 2))) = Except.error "AttributeError" ∧
    normalise_unit_py none = Except.ok none ∧
    normalise_unit_py (some (PyVal.str "M2")) = Except.ok (some "m2") ∧
    normalise_unit_py (some (PyVal.str "M3")) = Except.ok (some "m3") ∧
    normalise_unit_py (some (PyVal.str "M")) = Except.ok (some "m") ∧
    normalise_unit_py (some (PyVal.str "KG")) = Except.ok (some "kg") ∧
    normalise_unit_py (some (PyVal.str "UND")) = Except.ok (some "un") ∧
    normalise_unit_py (some (PyVal.str "VB")) = Except.ok (some "vb") ∧
    normalise_unit_py (some (PyVal.str "MÊS")) = Except.ok (some "mes") ∧
    normalise_unit_py (some (PyVal.str "MES")) = Except.ok (some "mes") ∧
    normalise_unit_py (some (PyVal.str " UND ")) = Except.ok (some "un") ∧
    normalise_unit_py (some (PyVal.str "CX")) = Except.ok (some "cx") :=
  ⟨rfl, rfl, rfl, rfl, rfl, rfl, rfl, rfl, rfl, rfl, rfl, rfl, rfl⟩

def c2_task : InputItem :=
  { raw_item := "1.1.2", description := "T", code := some "C",
    unit := some "M2", is_data := true }

/-- Claim C2 counterexample: the first (and only) task routed into container
`001.001.001` keeps its original sub-index and becomes `001.001.001.002`;
the claimed per-container counter starting at 1 would assign
`001.001.001.001`. -/
theorem C2_counterexample :
    ((transform [c2_task]).map (fun r => r.item)) =
      ["001.001.001", "001.001.001.002"] ∧
    ("001.001.001.002" : String) ≠ "001.001.001.001" :=
  ⟨by decide, by decide⟩

/-- Claim C2 (amended): there is no per-container counter.  A level-2 task's
level-4 identifier is its padded identifier plus `.001.001`; a level-3 task
keeps its original third part as the level-4 suffix; a level-4 task keeps
its padded identifier verbatim. -/
theorem C2_amended (s : TState) (it : InputItem) (hd : it.is_data = true) :
    (it.level = 2 →
      ((processItem s it).2.map (fun r => r.item)).getLast? =
        some ((it.padded_item ++ ".001") ++ ".001")) ∧
    (it.level = 3 →
      ((processItem s it).2.map (fun r => r.item)).getLast? =
        some ((joinDot (it.parts.take 2) ++ ".001") ++ "." ++ it.parts.getD 2 "")) ∧
    (it.level = 4 →
      (processItem s it).2.map (fun r => r.item) = [it.padded_item]) := by
  refine ⟨?_, ?_, ?_⟩
  · intro h2
    by_cases hm : it.padded_item ++ ".001" ∈ s.emitted_headers
    · rw [processItem_l2_task_seen s it h2 hd hm]; rfl
    · rw [processItem_l2_task_new s it h2 hd hm]; rfl
  · intro h3
    by_cases hm : joinDot (it.parts.take 2) ++ ".001" ∈ s.emitted_headers
    · rw [processItem_l3_task_seen s it h3 hd hm]; rfl
    · rw [processItem_l3_task_new s it h3 hd hm]; rfl
  · intro h4
    rw [processItem_l4 s it h4]; rfl

theorem C2_amended_witness :
    c2_task.is_data = true ∧ c2_task.level = 3 ∧
    (((processItem initState c2_task).2.map (fun r => r.item)).getLast? =
      some ((joinDot (c2_task.parts.take 2) ++ ".001") ++ "." ++
        c2_task.parts.getD 2 "")) :=
  ⟨rfl, by decide, (C2_amended initState c2_task rfl).2.1 (by decide)⟩

/-- Claim C8: a level-4 task is passed through verbatim: exactly one row,
whose item is the zero-padded input identifier, with no synthetic header
(the emitted-header set is unchanged) and no renumbering. -/
theorem C8_l4_passthrough (s : TState) (it : InputItem)
    (hd : it.is_data = true) (h4 : it.level = 4) :
    (processItem s it).2 = [task_row it it.padded_item] ∧
    (processItem s it).1.emitted_headers = s.emitted_headers := by
  rw [processItem_l4 s it h4]
  exact ⟨rfl, rfl⟩

def c8_task : InputItem :=
  { raw_item := "1.1.1.7", description := "T4", code := some "C8",
    unit := some "KG", price := some 5, quantity := some 2, is_data := true }

theorem C8_witness :
    c8_task.is_data = true ∧ c8_task.level = 4 ∧
    (processItem initState c8_task).2 = [task_row c8_task c8_task.padded_item] ∧
    (processItem initState c8_task).2 =
      [{ item := "001.001.001.007", code := some "C8", description := "T4",
         unit := some "kg", quantity := some 2, price := some 5 }] :=
  ⟨rfl, by decide, (C8_l4_passthrough initState c8_task rfl (by decide)).1,
   by decide⟩

/-- Claim C5: a level-5-or-deeper task is flattened to level 4: one row whose
item joins the first three padded parts with dots and concatenates the
remaining padded parts without dots, with code, description, normalised
unit, quantity and price copied, and no header synthesized (the
emitted-header set is unchanged). -/
theorem C5_l5_flatten (s : TState) (it : InputItem)
    (hd : it.is_data = true) (h5 : 5 ≤ it.level) :
    (processItem s it).2 =
      [task_row it (joinDot (it.parts.take 3) ++ "." ++ concatAll (it.parts.drop 3))] ∧
    (processItem s it).1.emitted_headers = s.emitted_headers := by
  rw [processItem_l5 s it h5]
  exact ⟨rfl, rfl⟩

def c5_task : InputItem :=
  { raw_item := "12.04.01.02.01", description := "Deep", code := some "C5",
    unit := some "VB", price := some 7, quantity := some 4, is_data := true }

theorem C5_witness :
    c5_task.is_data = true ∧ 5 ≤ c5_task.level ∧
    (processItem initState c5_task).2 =
      [task_row c5_task
        (joinDot (c5_task.parts.take 3) ++ "." ++ concatAll (c5_task.parts.drop 3))] ∧
    (processItem initState c5_task).2 =
      [{ item := "012.004.001.002001", code := some "C5", description := "Deep",
         unit := some "vb", quantity := some 4, price := some 7 }] :=
  ⟨rfl, by decide, (C5_l5_flatten initState c5_task rfl (by decide)).1,
   by decide⟩

def c3_task : InputItem :=
  { raw_item := "1", description := "D", code := some "C",
    unit := some "M2", is_data := true }

/-- Claim C3 counterexample: a level-1 task (code present, is_data true) is
emitted as a plain group header with its code dropped, so the coded output
rows are not in 1:1 correspondence with the input tasks. -/
theorem C3_counterexample :
    ((transform [c3_task]).filter (fun r => r.code.isSome)) = [] ∧
    ([c3_task].filter (fun it => it.is_data)).length = 1 ∧
    c3_task.code.isSome = c3_task.is_data :=
  ⟨by decide, by decide, by decide⟩

/-- Claim C3 (amended): when code is present exactly on the task records and
every task sits at level 2 or deeper, the coded output rows correspond 1:1
and in order with the input tasks, each keeping its code and description. -/
theorem C3_amended (items : List InputItem)
    (hcode : ∀ it ∈ items, it.code.isSome = it.is_data)
    (hlvl : ∀ it ∈ items, it.is_data = true → 2 ≤ it.level) :
    ((transform items).filter (fun r => r.code.isSome)).map
        (fun r => (r.code, r.description)) =
      (items.filter (fun it => it.is_data)).map
        (fun it => (it.code, it.description)) := by
  rw [transform, transformAux_coded items initState hcode, List.map_map]
  have hfeq : items.filter (fun it => it.is_data && decide (2 ≤ it.level)) =
      items.filter (fun it => it.is_data) := by
    apply List.filter_congr
    intro it hit
    rcases bool_cases it.is_data with hd | hd
    · rw [hd, Bool.false_and]
    · rw [hd, Bool.true_and, decide_eq_true (hlvl it hit hd)]
  rw [hfeq]
  rfl

def c3_group2 : InputItem := { raw_item := "2", description := "G" }

def c3_task2 : InputItem :=
  { raw_item := "2.1", description := "T", code := some "K",
    unit := some "UND", is_data := true }

theorem C3_amended_witness :
    (∀ it ∈ [c3_group2, c3_task2], it.code.isSome = it.is_data) ∧
    (∀ it ∈ [c3_group2, c3_task2], it.is_data = true → 2 ≤ it.level) ∧
    ((transform [c3_group2, c3_task2]).filter (fun r => r.code.isSome)).map
        (fun r => (r.code, r.description)) =
      ([c3_group2, c3_task2].filter (fun it => it.is_data)).map
        (fun it => (it.code, it.description)) :=
  ⟨by decide, by decide, C3_amended _ (by decide) (by decide)⟩

def c4_task_a : InputItem :=
  { raw_item := "1.1", description := "A", code := some "C1",
    unit := some "M2", is_data := true }

def c4_task_b : InputItem :=
  { raw_item := "1.1.1", description := "B", code := some "C2",
    unit := some "M2", is_data := true }

/-- Claim C4 counterexample: a level-2 task `1.1` and a level-3 task `1.1.1`
are both routed to the level-4 identifier `001.001.001.001`, so two coded
output rows share the same item identifier. -/
theorem C4_counterexample :
    (((transform [c4_task_a, c4_task_b]).filter (fun r => r.code.isSome)).map
        (fun r => r.item)) = ["001.001.001.001", "001.001.001.001"] ∧
    ¬ (((transform [c4_task_a, c4_task_b]).filter (fun r => r.code.isSome)).map
        (fun r => r.item)).Nodup :=
  ⟨by decide, by decide⟩

/-- Claim C4 (amended): coded output rows have pairwise distinct item
identifiers when code is present exactly on the task records, every task is
at level 4, and the tasks' padded identifiers are pairwise distinct. -/
theorem C4_amended (items : List InputItem)
    (hcode : ∀ it ∈ items, it.code.isSome = it.is_data)
    (hlvl : ∀ it ∈ items, it.is_data = true → it.level = 4)
    (hnd : ((items.filter (fun it => it.is_data)).map
      (fun it => it.padded_item)).Nodup) :
    (((transform items).filter (fun r => r.code.isSome)).map
      (fun r => r.item)).Nodup := by
  rw [transform, transformAux_coded items initState hcode, List.map_map]
  have hfeq : items.filter (fun it => it.is_data && decide (2 ≤ it.level)) =
      items.filter (fun it => it.is_data) := by
    apply List.filter_congr
    intro it hit
    rcases bool_cases it.is_data with hd | hd
    · rw [hd, Bool.false_and]
    · have h4 := hlvl it hit hd
      rw [hd, Bool.true_and, decide_eq_true (by omega : 2 ≤ it.level)]
  rw [hfeq]
  have hmap : (items.filter (fun it => it.is_data)).map
      ((fun r : OutputRow => r.item) ∘ (fun it => task_row it (task_item it))) =
      (items.filter (fun it => it.is_data)).map (fun it => it.padded_item) := by
    apply List.map_congr_left
    intro it hit
    have hmem := List.mem_filter.mp hit
    have h4 := hlvl it hmem.1 hmem.2
    simp [Function.comp, task_row, task_item, h4]
  rw [hmap]
  exact hnd

def c4_t1 : InputItem :=
  { raw_item := "1.1.1.1", description := "X", code := some "X1",
    unit := some "M2", is_data := true }

def c4_t2 : InputItem :=
  { raw_item := "1.1.1.2", description := "Y", code := some "X2",
    unit := some "M2", is_data := true }

theorem C4_amended_witness :
    (∀ it ∈ [c4_t1, c4_t2], it.code.isSome = it.is_data) ∧
    (∀ it ∈ [c4_t1, c4_t2], it.is_data = true → it.level = 4) ∧
    (([c4_t1, c4_t2].filter (fun it => it.is_data)).map
      (fun it => it.padded_item)).Nodup ∧
    (((transform [c4_t1, c4_t2]).filter (fun r => r.code.isSome)).map
      (fun r => r.item)).Nodup :=
  ⟨by decide, by decide, by decide,
   C4_amended _ (by decide) (by decide) (by decide)⟩

def c6_group : InputItem := { raw_item := "1.1.1.1.1", description := "D" }

/-- Claim C6 counterexample: a non-task record at level 5 is emitted with the
flattened identifier `001.001.001.001001`, not its padded identifier
`001.001.001.001.001`. -/
theorem C6_counterexample :
    (transform [c6_group]).map (fun r => (r.item, r.description)) =
      [("001.001.001.001001", "D")] ∧
    c6_group.padded_item = "001.001.001.001.001" ∧
    ("001.001.001.001001" : String) ≠ "001.001.001.001.001" :=
  ⟨by decide, by decide, by decide⟩

/-- Claim C6 (amended): a non-task record emits exactly one row with its
description unchanged; the row's item is the padded identifier at levels 1
to 4, but the flattened identifier at level 5 and deeper. -/
theorem C6_amended (s : TState) (it : InputItem)
    (hd : it.is_data = false) (h1 : 1 ≤ it.level) :
    (it.level ≤ 4 →
      (processItem s it).2.map (fun r => (r.item, r.description)) =
        [(it.padded_item, it.description)]) ∧
    (5 ≤ it.level →
      (processItem s it).2.map (fun r => (r.item, r.description)) =
        [(joinDot (it.parts.take 3) ++ "." ++ concatAll (it.parts.drop 3),
          it.description)]) := by
  constructor
  · intro hle
    rcases level_cases it with h | h | h | h | h | h
    · omega
    · rw [processItem_l1 s it h]; rfl
    · rw [processItem_l2_group s it h hd]; rfl
    · rw [processItem_l3_group s it h hd]; rfl
    · rw [processItem_l4 s it h]; rfl
    · omega
  · intro h5
    rw [processItem_l5 s it h5]; rfl

def c6_group2 : InputItem := { raw_item := "3.2", description := "G2" }

theorem C6_witness :
    c6_group2.is_data = false ∧ 1 ≤ c6_group2.level ∧ c6_group2.level ≤ 4 ∧
    (processItem initState c6_group2).2.map (fun r => (r.item, r.description)) =
      [(c6_group2.padded_item, c6_group2.description)] :=
  ⟨rfl, by decide, by decide,
   (C6_amended initState c6_group2 rfl (by decide)).1 (by decide)⟩

def c7_group : InputItem := { raw_item := "1.1.1", description := "G" }

def c7_task : InputItem :=
  { raw_item := "1.1", description := "T", code := some "C",
    unit := some "M2", is_data := true }

/-- Claim C7 counterexample: emitting the group row `1.1.1` does not mark
`001.001.001` as emitted, so the level-2 task `1.1` still synthesizes a
header with that same identifier afterwards: the identifier appears twice. -/
theorem C7_counterexample :
    (transform [c7_group, c7_task]).map (fun r => r.item) =
      ["001.001.001", "001.001.001", "001.001.001.001"] ∧
    ((transform [c7_group, c7_task]).map (fun r => r.item)).count "001.001.001" = 2 :=
  ⟨by decide, by decide⟩

/-- Claim C7 (amended): synthetic header identifiers are pairwise distinct
across a whole run (each emitted at most once), but emitting a non-task
record leaves the emitted-header set unchanged, so a synthetic header may
repeat the identifier of a previously emitted group row. -/
theorem C7_amended :
    (∀ items : List InputItem, (transformSyn initState items).Nodup) ∧
    (∀ (s : TState) (it : InputItem), it.is_data = false →
      (processItem s it).1.emitted_headers = s.emitted_headers) := by
  constructor
  · intro items
    exact transformSyn_nodup items initState
  · intro s it hd
    have hc2 : ¬ (it.level = 2 ∧ it.is_data = true) := by
      rintro ⟨-, hx⟩
      rw [hd] at hx
      exact Bool.false_ne_true hx
    have hc3 : ¬ (it.level = 3 ∧ it.is_data = true) := by
      rintro ⟨-, hx⟩
      rw [hd] at hx
      exact Bool.false_ne_true hx
    rw [processItem_emitted]
    simp [syn_headers, hc2, hc3]

theorem C7_witness :
    (transformSyn initState [c7_group, c7_task]).Nodup ∧
    c7_group.is_data = false ∧
    (processItem initState c7_group).1.emitted_headers =
      initState.emitted_headers :=
  ⟨C7_amended.1 [c7_group, c7_task], rfl, C7_amended.2 initState c7_group rfl⟩

def c10_group : InputItem := { raw_item := "1.1", description := "P" }

def c10_task : InputItem :=
  { raw_item := "1.1.1", description := "T", code := some "C",
    unit := some "M2", is_data := true }

/-- Claim C10 counterexample: with the parent group `1.1` (description `P`)
appearing after the level-3 task `1.1.1` (description `T`), the synthetic
header carries the task's description `T`, not the parent's `P`: there is
no full harvesting pass before emission. -/
theorem C10_counterexample :
    (transform [c10_task, c10_group]).map (fun r => (r.item, r.description)) =
      [("001.001.001", "T"), ("001.001.001.001", "T"), ("001.001", "P")] ∧
    ("T" : String) ≠ "P" :=
  ⟨by decide, by decide⟩

/-- Claim C10 (amended): descriptions are recorded in the same single pass,
so the synthetic level-3 header for a level-3 task takes the description
recorded for the parent identifier among the records processed so far (the
preceding records plus the task itself, most recent first), falling back to
the task's own description; records appearing only later contribute
nothing. -/
theorem C10_amended (pre : List InputItem) (it : InputItem)
    (hd : it.is_data = true) (h3 : it.level = 3)
    (hm : joinDot (it.parts.take 2) ++ ".001" ∉
      (runState initState pre).emitted_headers) :
    transform (pre ++ [it]) =
      transform pre ++
        [{ item := joinDot (it.parts.take 2) ++ ".001",
           description :=
             (List.lookup (joinDot (it.parts.take 2))
               ((it.padded_item, it.description) ::
                 (pre.map (fun r => (r.padded_item, r.description))).reverse)).getD
               it.description },
         task_row it ((joinDot (it.parts.take 2) ++ ".001") ++ "." ++
           it.parts.getD 2 "")] := by
  rw [transform, transform, transformAux_append pre [it] initState]
  congr 1
  rw [transformAux, processItem_l3_task_new _ it h3 hd hm,
    runState_desc_map pre initState]
  simp [transformAux, initState]

theorem C10_witness :
    c10_task.is_data = true ∧ c10_task.level = 3 ∧
    (joinDot (c10_task.parts.take 2) ++ ".001" ∉
      (runState initState [c10_group]).emitted_headers) ∧
    transform ([c10_group] ++ [c10_task]) =
      transform [c10_group] ++
        [{ item := joinDot (c10_task.parts.take 2) ++ ".001",
           description :=
             (List.lookup (joinDot (c10_task.parts.take 2))
               ((c10_task.padded_item, c10_task.description) ::
                 ([c10_group].map (fun r => (r.padded_item, r.description))).reverse)).getD
               c10_task.description },
         task_row c10_task ((joinDot (c10_task.parts.take 2) ++ ".001") ++ "." ++
           c10_task.parts.getD 2 "")] :=
  ⟨rfl, by decide, by decide,
   C10_amended [c10_group] c10_task rfl (by decide) (by decide)⟩

end Sienge
